import Mathlib

/-!
# Verification of the openlist-api Transport Core and helpers

Shallow embedding of `src/openlist_api/client.py` (class `BaseClient`),
`src/openlist_api/exceptions.py`, the password-hash transform of
`src/openlist_api/auth.py` (`AuthAPI.login_hash`), and the upload-header
construction of `src/openlist_api/fs.py` (`form_upload` / `stream_upload`).

The HTTP transport (the `requests` library) is modelled at its observable
boundary: a call to `session.request` either yields a response object
(status code, the result of `.json()`, the status-line text used by
`raise_for_status`) or raises one of the `requests` exception classes.
The exception-class hierarchy of `requests` that the code's `except`
clauses dispatch on is embedded explicitly, so that the propagation of an
uncaught exception is representable (constructor `CallResult.raisedOther`).
-/

set_option maxRecDepth 8000

namespace OpenList

/-- JSON values, the carrier for everything Python treats as the result of
`response.json()` and for payload fields.  Numbers are integers here: no
claim performs numeric computation on a JSON number, it is only a carrier
for structural equality. -/
inductive Json where
  | null : Json
  | bool (b : Bool) : Json
  | num (n : Int) : Json
  | str (s : String) : Json
  | arr (elems : List Json) : Json
  | obj (fields : List (String × Json)) : Json
deriving Repr

/-- Python `dict.get key` on a JSON object field list: first binding wins. -/
def jsonGet (fields : List (String × Json)) (key : String) : Option Json :=
  match fields with
  | [] => none
  | (k, v) :: rest => if k = key then some v else jsonGet rest key

/-- The observable part of a `requests.Response`.

`jsonBody` is the behaviour of `response.json()`: `some v` when the body is
a well-formed JSON document parsing to `v`, `none` when `.json()` raises
`requests.exceptions.JSONDecodeError`.  `decodeErrText` is `str` of that
decode exception; `reason` and `url` feed the status-line text that
`raise_for_status` puts into the `HTTPError` it raises. -/
structure HttpResponse where
  status_code : Nat
  jsonBody : Option Json
  decodeErrText : String
  reason : String
  url : String
deriving Repr

/-- `str(e)` of the `HTTPError` raised by `Response.raise_for_status` for
this response: the transport library's generic status-line text
(`requests/models.py`: "%s Client Error: %s for url: %s" for 4xx,
"%s Server Error: %s for url: %s" for 5xx). -/
def httpErrorText (r : HttpResponse) : String :=
  if r.status_code < 500 then
    toString r.status_code ++ " Client Error: " ++ r.reason ++ " for url: " ++ r.url
  else
    toString r.status_code ++ " Server Error: " ++ r.reason ++ " for url: " ++ r.url

/-- The exception classes of `src/openlist_api/exceptions.py`:
`OpenListAPIError` is the base (raised itself in the final `else` branch of
`_handle_response`, playing the role the spec calls `GenericAPIError`), the
others subclass it and add no structure. -/
inductive ErrorKind where
  | OpenListAPIError
  | AuthenticationError
  | AuthorizationError
  | NotFoundError
  | ValidationError
  | NetworkError
  | ServerError
deriving Repr

/-- An instance of the `OpenListAPIError` hierarchy: which class was raised
plus the three constructor fields `message`, `status_code`, `response`.
`message` is a `Json` value because `error_data.get('message', str(e))`
can yield any JSON value when the body's `message` field is not a string. -/
structure APIError where
  kind : ErrorKind
  message : Json
  status_code : Option Nat
  response : Option HttpResponse
deriving Repr

/-- `NetworkError(msg)` as raised in `_request`: no status code, no response. -/
def mkNetworkError (msg : String) : APIError :=
  ⟨ErrorKind.NetworkError, Json.str msg, none, none⟩

/-- The exceptions that can be in flight inside `BaseClient._request`'s
`try` block, tagged by their `requests`/library class. -/
inductive RaisedExc where
  | httpError (r : HttpResponse)
  | jsonDecodeError (msg : String)
  | timeoutExc (msg : String)
  | connectionError (msg : String)
  | requestException (msg : String)
  | apiError (e : APIError)
deriving Repr

/-- Membership in class `requests.exceptions.HTTPError`. -/
def RaisedExc.isHTTPError : RaisedExc → Bool
  | .httpError _ => true
  | _ => false

/-- Membership in class `requests.exceptions.Timeout`. -/
def RaisedExc.isTimeout : RaisedExc → Bool
  | .timeoutExc _ => true
  | _ => false

/-- Membership in class `requests.exceptions.ConnectionError`. -/
def RaisedExc.isConnectionError : RaisedExc → Bool
  | .connectionError _ => true
  | _ => false

/-- Membership in class `requests.exceptions.RequestException`: every
`requests` exception subclasses it — `HTTPError`, `Timeout`,
`ConnectionError`, and `JSONDecodeError` (via `InvalidJSONError`).  The
`OpenListAPIError` hierarchy subclasses plain `Exception`, not
`RequestException`. -/
def RaisedExc.isRequestException : RaisedExc → Bool
  | .apiError _ => false
  | _ => true

/-- `str(e)` for an in-flight exception, as interpolated into the
`NetworkError` messages of `_request`. -/
def RaisedExc.excText : RaisedExc → String
  | .httpError r => httpErrorText r
  | .jsonDecodeError m => m
  | .timeoutExc m => m
  | .connectionError m => m
  | .requestException m => m
  | .apiError e => match e.message with
    | .str s => s
    | _ => ""

/-- The session state of `BaseClient`: `base_url` (trailing `/` stripped in
`__init__`), `timeout`, and the optional `token`. -/
structure BaseClient where
  base_url : String
  timeout : Nat
  token : Option String
deriving Repr

/-- `base_url.rstrip('/')`. -/
def rstripSlash (s : String) : String :=
  String.mk ((s.toList.reverse.dropWhile (fun c => c = '/')).reverse)

/-- `BaseClient.__init__`: strips trailing slashes off the base URL. -/
def BaseClient.init (base_url : String) (timeout : Nat) (token : Option String) : BaseClient :=
  ⟨rstripSlash base_url, timeout, token⟩

/-- `BaseClient.set_token`. -/
def set_token (st : BaseClient) (token : String) : BaseClient :=
  { st with token := some token }

/-- Python truthiness of `self.token`: `None` and `""` are falsy. -/
def pyTruthy : Option String → Bool
  | none => false
  | some s => s != ""

/-- `BaseClient._get_headers`: default Content-Type, plus `Authorization`
bound verbatim to the token when `if self.token:` holds. -/
def get_headers (st : BaseClient) : List (String × String) :=
  let headers := [("Content-Type", "application/json")]
  if pyTruthy st.token then
    headers ++ [("Authorization", st.token.getD "")]
  else
    headers

/-- Lookup in a header dict (first binding wins; header lists are kept so
that an entry shadowing an earlier key comes first, which models
`dict.update`). -/
def headerLookup (hs : List (String × String)) (key : String) : Option String :=
  match hs with
  | [] => none
  | (k, v) :: rest => if k = key then some v else headerLookup rest key

/-- The request `_request` hands to `session.request`: method, composed
URL, and the header dict after `headers.update(kwargs.pop('headers'))` —
caller-supplied entries shadow the defaults, so they come first. -/
structure SentRequest where
  method : String
  url : String
  headers : List (String × String)
deriving Repr

/-- Header/URL assembly of `BaseClient._request` (lines before the `try`). -/
def buildRequest (st : BaseClient) (method endpoint : String)
    (extra : List (String × String)) : SentRequest :=
  ⟨method, st.base_url ++ endpoint, extra ++ get_headers st⟩

/-- The transport's behaviour on one call: `session.request` either
returns a response or raises a `Timeout`, a `ConnectionError`, or some
other `RequestException`. -/
inductive TransportOutcome where
  | ok (r : HttpResponse)
  | timeoutFault (msg : String)
  | connFault (msg : String)
  | otherFault (msg : String)
deriving Repr

/-- The error-branch message extraction of `_handle_response`:
`error_data = response.json(); error_message = error_data.get('message', str(e))`
under a bare `except:` — a body that fails to parse, or parses to a
non-object (where `.get` raises `AttributeError`), or an object without a
`message` field, all fall back to `str(e)`, the `HTTPError` text. -/
def extractMessage (r : HttpResponse) : Json :=
  match r.jsonBody with
  | some (Json.obj fields) =>
    match jsonGet fields "message" with
    | some v => v
    | none => Json.str (httpErrorText r)
  | _ => Json.str (httpErrorText r)

/-- The `elif` chain of `_handle_response` classifying a failed response
(only reached when `raise_for_status` raised, i.e. 400 ≤ status < 600). -/
def classify (r : HttpResponse) : APIError :=
  let error_message := extractMessage r
  if r.status_code = 401 then
    ⟨ErrorKind.AuthenticationError, error_message, some r.status_code, some r⟩
  else if r.status_code = 403 then
    ⟨ErrorKind.AuthorizationError, error_message, some r.status_code, some r⟩
  else if r.status_code = 404 then
    ⟨ErrorKind.NotFoundError, error_message, some r.status_code, some r⟩
  else if r.status_code = 400 then
    ⟨ErrorKind.ValidationError, error_message, some r.status_code, some r⟩
  else if 500 ≤ r.status_code then
    ⟨ErrorKind.ServerError, error_message, some r.status_code, some r⟩
  else
    ⟨ErrorKind.OpenListAPIError, error_message, some r.status_code, some r⟩

/-- The `try` body of `_handle_response`: `response.raise_for_status()`
(raises `HTTPError` exactly when 400 ≤ status < 600, per
`requests/models.py`) then `return response.json()` (raises
`JSONDecodeError` when the body is not valid JSON). -/
def handleResponseTryBody (r : HttpResponse) : Except RaisedExc Json :=
  if 400 ≤ r.status_code ∧ r.status_code < 600 then
    Except.error (RaisedExc.httpError r)
  else
    match r.jsonBody with
    | some v => Except.ok v
    | none => Except.error (RaisedExc.jsonDecodeError r.decodeErrText)

/-- `BaseClient._handle_response`: the `except requests.exceptions.HTTPError`
clause catches only `HTTPError` and re-raises the classified
`OpenListAPIError`; any other exception (a `JSONDecodeError` from the 2xx
path) propagates. -/
def handle_response (r : HttpResponse) : Except RaisedExc Json :=
  match handleResponseTryBody r with
  | Except.ok v => Except.ok v
  | Except.error e =>
    if e.isHTTPError then Except.error (RaisedExc.apiError (classify r))
    else Except.error e

/-- What a call through `_request` delivers to its caller: a parsed JSON
value, a raised `OpenListAPIError` (the classified failure), or — if the
`except` chain were to miss — some other exception escaping raw. -/
inductive CallResult where
  | value (v : Json)
  | raisedAPI (e : APIError)
  | raisedOther (e : RaisedExc)
deriving Repr

/-- The `try`/`except` chain of `BaseClient._request`: the `try` block runs
`session.request` then `_handle_response`; the clauses catch
`Timeout`, `ConnectionError`, `RequestException` in that order and
re-raise `NetworkError`; anything else propagates. -/
def dispatch (outcome : TransportOutcome) : CallResult :=
  let tried : Except RaisedExc Json :=
    match outcome with
    | TransportOutcome.ok r => handle_response r
    | TransportOutcome.timeoutFault m => Except.error (RaisedExc.timeoutExc m)
    | TransportOutcome.connFault m => Except.error (RaisedExc.connectionError m)
    | TransportOutcome.otherFault m => Except.error (RaisedExc.requestException m)
  match tried with
  | Except.ok v => CallResult.value v
  | Except.error e =>
    if e.isTimeout then CallResult.raisedAPI (mkNetworkError ("请求超时: " ++ e.excText))
    else if e.isConnectionError then CallResult.raisedAPI (mkNetworkError ("连接失败: " ++ e.excText))
    else if e.isRequestException then CallResult.raisedAPI (mkNetworkError ("网络错误: " ++ e.excText))
    else
      match e with
      | RaisedExc.apiError a => CallResult.raisedAPI a
      | other => CallResult.raisedOther other

/-- `BaseClient._request`: assembles the outgoing request and runs the
dispatch; the transport's behaviour for this call is the `outcome`
parameter. -/
def request (st : BaseClient) (method endpoint : String)
    (extra : List (String × String)) (outcome : TransportOutcome) :
    SentRequest × CallResult :=
  (buildRequest st method endpoint extra, dispatch outcome)

/-- `BaseClient.get`. -/
def get (st : BaseClient) (endpoint : String) (extra : List (String × String))
    (outcome : TransportOutcome) : SentRequest × CallResult :=
  request st "GET" endpoint extra outcome

/-- `BaseClient.post`. -/
def post (st : BaseClient) (endpoint : String) (extra : List (String × String))
    (outcome : TransportOutcome) : SentRequest × CallResult :=
  request st "POST" endpoint extra outcome

/-- `BaseClient.put`. -/
def put (st : BaseClient) (endpoint : String) (extra : List (String × String))
    (outcome : TransportOutcome) : SentRequest × CallResult :=
  request st "PUT" endpoint extra outcome

/-- `BaseClient.delete`. -/
def delete (st : BaseClient) (endpoint : String) (extra : List (String × String))
    (outcome : TransportOutcome) : SentRequest × CallResult :=
  request st "DELETE" endpoint extra outcome

/-! ## SHA-256 (`hashlib.sha256(...).hexdigest()`), over byte lists -/

/-- Truncation to a 32-bit word. -/
def w32 (n : Nat) : Nat := n % 4294967296

/-- Right rotation of a 32-bit word. -/
def rotr (x n : Nat) : Nat := w32 ((x >>> n) ||| (x <<< (32 - n)))

/-- Bitwise complement of a 32-bit word. -/
def compl32 (x : Nat) : Nat := x ^^^ 4294967295

/-- The UTF-8 encoding of one Unicode scalar value, as Python
`str.encode()` produces it. -/
def utf8Char (c : Char) : List Nat :=
  let n := c.toNat
  if n < 128 then [n]
  else if n < 2048 then [192 + n / 64, 128 + n % 64]
  else if n < 65536 then [224 + n / 4096, 128 + n / 64 % 64, 128 + n % 64]
  else [240 + n / 262144, 128 + n / 4096 % 64, 128 + n / 64 % 64, 128 + n % 64]

/-- `s.encode()`: the UTF-8 bytes of a string. -/
def utf8Bytes (s : String) : List Nat := s.toList.flatMap utf8Char

/-- `count` bytes of `n`, big-endian. -/
def beBytes : Nat → Nat → List Nat
  | 0, _ => []
  | k + 1, n => beBytes k (n / 256) ++ [n % 256]

/-- SHA-256 message padding for a message of `len` bytes: `0x80`, zeros up
to 56 mod 64, then the bit length on 8 bytes. -/
def sha256Padding (len : Nat) : List Nat :=
  let zeros := (55 + 64 - len % 64) % 64
  128 :: List.replicate zeros 0 ++ beBytes 8 (len * 8)

/-- Split a byte list into 64-byte blocks, with a fuel argument (one unit
per element suffices, since each step consumes at least one element) so
that the recursion is structural and reduces definitionally. -/
def toBlocksAux : Nat → List Nat → List (List Nat)
  | 0, _ => []
  | _, [] => []
  | fuel + 1, l => (l.take 64) :: toBlocksAux fuel (l.drop 64)

/-- Split a byte list into 64-byte blocks (the input length is a multiple
of 64 after padding). -/
def toBlocks (l : List Nat) : List (List Nat) :=
  toBlocksAux l.length l

/-- Group bytes into big-endian 32-bit words. -/
def bytesToWords : List Nat → List Nat
  | a :: b :: c :: d :: rest =>
    (a * 16777216 + b * 65536 + c * 256 + d) :: bytesToWords rest
  | _ => []

/-- The 64 SHA-256 round constants (FIPS 180-4 §4.2.2, written in
decimal). -/
def sha256K : List Nat :=
  [1116352408, 1899447441, 3049323471, 3921009573,
   961987163, 1508970993, 2453635748, 2870763221,
   3624381080, 310598401, 607225278, 1426881987,
   1925078388, 2162078206, 2614888103, 3248222580,
   3835390401, 4022224774, 264347078, 604807628,
   770255983, 1249150122, 1555081692, 1996064986,
   2554220882, 2821834349, 2952996808, 3210313671,
   3336571891, 3584528711, 113926993, 338241895,
   666307205, 773529912, 1294757372, 1396182291,
   1695183700, 1986661051, 2177026350, 2456956037,
   2730485921, 2820302411, 3259730800, 3345764771,
   3516065817, 3600352804, 4094571909, 275423344,
   430227734, 506948616, 659060556, 883997877,
   958139571, 1322822218, 1537002063, 1747873779,
   1955562222, 2024104815, 2227730452, 2361852424,
   2428436474, 2756734187, 3204031479, 3329325298]

/-- The eight SHA-256 working variables. -/
structure Hash8 where
  a : Nat
  b : Nat
  c : Nat
  d : Nat
  e : Nat
  f : Nat
  g : Nat
  h : Nat
deriving Repr

/-- The SHA-256 initial hash value (FIPS 180-4 §5.3.3, written in
decimal). -/
def sha256H0 : Hash8 :=
  ⟨1779033703, 3144134277, 1013904242, 2773480762,
   1359893119, 2600822924, 528734635, 1541459225⟩

/-- σ0 of the message schedule. -/
def smallSigma0 (x : Nat) : Nat := rotr x 7 ^^^ rotr x 18 ^^^ (x >>> 3)

/-- σ1 of the message schedule. -/
def smallSigma1 (x : Nat) : Nat := rotr x 17 ^^^ rotr x 19 ^^^ (x >>> 10)

/-- Σ0 of the compression function. -/
def bigSigma0 (x : Nat) : Nat := rotr x 2 ^^^ rotr x 13 ^^^ rotr x 22

/-- Σ1 of the compression function. -/
def bigSigma1 (x : Nat) : Nat := rotr x 6 ^^^ rotr x 11 ^^^ rotr x 25

/-- Ch(x, y, z). -/
def chFn (x y z : Nat) : Nat := (x &&& y) ^^^ (compl32 x &&& z)

/-- Maj(x, y, z). -/
def majFn (x y z : Nat) : Nat := (x &&& y) ^^^ (x &&& z) ^^^ (y &&& z)

/-- Extend the 16 block words to the 64-entry message schedule. -/
def buildSchedule (w0 : List Nat) : List Nat :=
  (List.range 48).foldl
    (fun ws _ =>
      let i := ws.length
      ws ++ [w32 (ws.getD (i - 16) 0 + smallSigma0 (ws.getD (i - 15) 0) +
                  ws.getD (i - 7) 0 + smallSigma1 (ws.getD (i - 2) 0))])
    w0

/-- One SHA-256 round. -/
def sha256Round (s : Hash8) (ki wi : Nat) : Hash8 :=
  let t1 := w32 (s.h + bigSigma1 s.e + chFn s.e s.f s.g + ki + wi)
  let t2 := w32 (bigSigma0 s.a + majFn s.a s.b s.c)
  ⟨w32 (t1 + t2), s.a, s.b, s.c, w32 (s.d + t1), s.e, s.f, s.g⟩

/-- Compress one 64-byte block into the running hash. -/
def sha256Block (hs : Hash8) (block : List Nat) : Hash8 :=
  let w := buildSchedule (bytesToWords block)
  let s := (sha256K.zip w).foldl (fun s p => sha256Round s p.1 p.2) hs
  ⟨w32 (hs.a + s.a), w32 (hs.b + s.b), w32 (hs.c + s.c), w32 (hs.d + s.d),
   w32 (hs.e + s.e), w32 (hs.f + s.f), w32 (hs.g + s.g), w32 (hs.h + s.h)⟩

/-- SHA-256 of a byte list, as 32 digest bytes. -/
def sha256 (msg : List Nat) : List Nat :=
  let padded := msg ++ sha256Padding msg.length
  let hf := (toBlocks padded).foldl sha256Block sha256H0
  beBytes 4 hf.a ++ beBytes 4 hf.b ++ beBytes 4 hf.c ++ beBytes 4 hf.d ++
  beBytes 4 hf.e ++ beBytes 4 hf.f ++ beBytes 4 hf.g ++ beBytes 4 hf.h

/-- Lowercase hex digit, as `hexdigest` emits. -/
def hexLowerChar (n : Nat) : Char := "0123456789abcdef".toList.getD n 'x'

/-- Two lowercase hex digits of a byte. -/
def byteToHexLower (b : Nat) : List Char := [hexLowerChar (b / 16 % 16), hexLowerChar (b % 16)]

/-- `hexdigest()` of a digest byte list. -/
def hexdigest (bytes : List Nat) : String := String.mk (bytes.flatMap byteToHexLower)

/-- `hashlib.sha256(s.encode()).hexdigest()`. -/
def sha256Hex (s : String) : String := hexdigest (sha256 (utf8Bytes s))

/-! ## `AuthAPI.login_hash` payload (auth.py lines 100-114) -/

/-- The fixed suffix appended to the plaintext password. -/
def loginHashSuffix : String := "-https://github.com/alist-org/alist"

/-- The JSON payload `login_hash` posts to `/api/auth/login/hash`:
username, the suffixed-and-hashed password, and `otp_code` only when
truthy. -/
def login_hash_payload (username password : String) (otp_code : Option String) :
    List (String × Json) :=
  let password_with_suffix := password ++ loginHashSuffix
  let hashed_password := sha256Hex password_with_suffix
  let payload := [("username", Json.str username), ("password", Json.str hashed_password)]
  if pyTruthy otp_code then payload ++ [("otp_code", Json.str (otp_code.getD ""))]
  else payload

/-- `AuthAPI.login_hash`: builds the payload (independently of the client
state) and posts it through the Transport Core; the first component is the
JSON payload handed to `post` as its `json=` body. -/
def login_hash (st : BaseClient) (username password : String) (otp_code : Option String)
    (outcome : TransportOutcome) : List (String × Json) × SentRequest × CallResult :=
  (login_hash_payload username password otp_code, post st "/api/auth/login/hash" [] outcome)

/-! ## `urllib.parse.quote(path, safe='')` and the upload headers -/

/-- CPython `urllib/parse.py` `_ALWAYS_SAFE`: ASCII letters, digits, and
`_.-~` — never quoted regardless of `safe`. -/
def ALWAYS_SAFE : String :=
  "ABCDEFGHIJKLMNOPQRSTUVWXYZabcdefghijklmnopqrstuvwxyz0123456789_.-~"

/-- Byte-level membership in `_ALWAYS_SAFE`; with `safe=''` no further
byte is exempt. -/
def alwaysSafeByte (b : Nat) : Bool :=
  ALWAYS_SAFE.toList.any (fun c => c.toNat == b)

/-- Uppercase hex digit, as `quote` emits in `%XX` escapes. -/
def hexUpperChar (n : Nat) : Char := "0123456789ABCDEF".toList.getD n 'x'

/-- `quote` of a single byte: kept verbatim when always-safe, otherwise
percent-escaped. -/
def quoteByte (b : Nat) : String :=
  if alwaysSafeByte b then String.mk [Char.ofNat b]
  else String.mk ['%', hexUpperChar (b / 16 % 16), hexUpperChar (b % 16)]

/-- `urllib.parse.quote(s, safe='')`: UTF-8 encode, then quote each byte. -/
def quote (s : String) : String := String.join ((utf8Bytes s).map quoteByte)

/-- `str(as_task).lower()`. -/
def pyBoolStr (b : Bool) : String := if b then "true" else "false"

/-- The headers `FileSystemAPI.form_upload` passes to `client.put`. -/
def formUploadHeaders (file_path : String) (as_task : Bool) : List (String × String) :=
  [("File-Path", quote file_path), ("As-Task", pyBoolStr as_task)]

/-- The headers `FileSystemAPI.stream_upload` passes to `client.put`. -/
def streamUploadHeaders (file_path : String) (as_task : Bool) : List (String × String) :=
  [("File-Path", quote file_path), ("As-Task", pyBoolStr as_task),
   ("Content-Type", "application/octet-stream")]

/-- `FileSystemAPI.form_upload`: a PUT to `/api/fs/form` with the
form-upload headers. -/
def form_upload (st : BaseClient) (file_path : String) (as_task : Bool)
    (outcome : TransportOutcome) : SentRequest × CallResult :=
  put st "/api/fs/form" (formUploadHeaders file_path as_task) outcome

/-- `FileSystemAPI.stream_upload`: a PUT to `/api/fs/put` with the
stream-upload headers. -/
def stream_upload (st : BaseClient) (file_path : String) (as_task : Bool)
    (outcome : TransportOutcome) : SentRequest × CallResult :=
  put st "/api/fs/put" (streamUploadHeaders file_path as_task) outcome

/-! ## Spec-side definitions (for refinement statements only) -/

/-- Worded from the spec (§4.1 step 5): "attempt to parse the body as JSON
and extract a `message` field for the failure's message; if parsing fails,
fall back to the transport library's generic status-line text." -/
def specFailureMessage (r : HttpResponse) : Json :=
  match r.jsonBody with
  | some (Json.obj fields) =>
    match jsonGet fields "message" with
    | some v => v
    | none => Json.str (httpErrorText r)
  | _ => Json.str (httpErrorText r)

/-- Worded from the spec / RFC 3986: the unreserved byte set
ALPHA / DIGIT / `-` / `.` / `_` / `~`. -/
def isUnreservedByte (b : Nat) : Bool :=
  decide ((65 ≤ b ∧ b ≤ 90) ∨ (97 ≤ b ∧ b ≤ 122) ∨ (48 ≤ b ∧ b ≤ 57) ∨
          b = 45 ∨ b = 46 ∨ b = 95 ∨ b = 126)

/-- Lowercase hex digit alphabet membership. -/
def isLowerHexDigit (c : Char) : Bool :=
  "0123456789abcdef".toList.any (fun d => d == c)

/-! ## Concrete fixtures used by witnesses and counterexamples -/

/-- A client fixture. -/
def clientA : BaseClient := BaseClient.init "http://example.com/" 30 none

/-- A response fixture with a given status and body. -/
def resp (code : Nat) (body : Option Json) : HttpResponse :=
  ⟨code, body, "Expecting value: line 1 column 1 (char 0)", "Reason", "http://example.com/x"⟩

/-! ## Shared lemmas -/

/-- Lookup distributes over header-dict concatenation, earlier entries
shadowing later ones. -/
theorem headerLookup_append (a b : List (String × String)) (k : String) :
    headerLookup (a ++ b) k =
      (match headerLookup a k with
       | some v => some v
       | none => headerLookup b k) := by
  induction a with
  | nil => simp [headerLookup]
  | cons p rest ih =>
    obtain ⟨k', v'⟩ := p
    by_cases h : k' = k <;> simp [headerLookup, h, ih]

/-- A response whose status triggered `raise_for_status` is delivered as
the classified `OpenListAPIError`. -/
theorem dispatch_classified (r : HttpResponse)
    (h4 : 400 ≤ r.status_code) (h6 : r.status_code < 600) :
    dispatch (TransportOutcome.ok r) = CallResult.raisedAPI (classify r) := by
  simp [dispatch, handle_response, handleResponseTryBody, h4, h6,
        RaisedExc.isHTTPError, RaisedExc.isTimeout, RaisedExc.isConnectionError,
        RaisedExc.isRequestException]

/-- Every branch of the `elif` chain attaches the extracted message, the
numeric status code, and the raw response to the raised error. -/
theorem classify_fields (r : HttpResponse) :
    (classify r).message = extractMessage r ∧
    (classify r).status_code = some r.status_code ∧
    (classify r).response = some r := by
  unfold classify
  repeat' split
  all_goals exact ⟨rfl, rfl, rfl⟩

/-- The code's message extraction coincides with the spec's wording. -/
theorem extractMessage_eq_spec (r : HttpResponse) :
    extractMessage r = specFailureMessage r := rfl

theorem classify_kind_400 (r : HttpResponse) (h : r.status_code = 400) :
    (classify r).kind = ErrorKind.ValidationError := by
  simp [classify, h]

theorem classify_kind_401 (r : HttpResponse) (h : r.status_code = 401) :
    (classify r).kind = ErrorKind.AuthenticationError := by
  simp [classify, h]

theorem classify_kind_403 (r : HttpResponse) (h : r.status_code = 403) :
    (classify r).kind = ErrorKind.AuthorizationError := by
  simp [classify, h]

theorem classify_kind_404 (r : HttpResponse) (h : r.status_code = 404) :
    (classify r).kind = ErrorKind.NotFoundError := by
  simp [classify, h]

theorem classify_kind_5xx (r : HttpResponse) (h5 : 500 ≤ r.status_code) :
    (classify r).kind = ErrorKind.ServerError := by
  have h1 : r.status_code ≠ 401 := by omega
  have h2 : r.status_code ≠ 403 := by omega
  have h3 : r.status_code ≠ 404 := by omega
  have h4 : r.status_code ≠ 400 := by omega
  simp [classify, h1, h2, h3, h4, h5]

theorem classify_kind_other_4xx (r : HttpResponse)
    (hlo : 400 ≤ r.status_code) (hhi : r.status_code < 500)
    (n0 : r.status_code ≠ 400) (n1 : r.status_code ≠ 401)
    (n3 : r.status_code ≠ 403) (n4 : r.status_code ≠ 404) :
    (classify r).kind = ErrorKind.OpenListAPIError := by
  have h5 : ¬ 500 ≤ r.status_code := by omega
  simp [classify, n0, n1, n3, n4, h5]

/-- A response whose status is outside [400, 600) goes down the success
path: the parsed body when `.json()` succeeds, a `JSONDecodeError` (caught
as a `RequestException`, hence `NetworkError`) otherwise. -/
theorem dispatch_no_raise (r : HttpResponse)
    (h : ¬ (400 ≤ r.status_code ∧ r.status_code < 600)) :
    dispatch (TransportOutcome.ok r) =
      (match r.jsonBody with
       | some v => CallResult.value v
       | none =>
         CallResult.raisedAPI (mkNetworkError ("网络错误: " ++ r.decodeErrText))) := by
  cases hb : r.jsonBody with
  | some v =>
    simp [dispatch, handle_response, handleResponseTryBody, h, hb]
  | none =>
    simp [dispatch, handle_response, handleResponseTryBody, h, hb,
          RaisedExc.isHTTPError, RaisedExc.isTimeout, RaisedExc.isConnectionError,
          RaisedExc.isRequestException, RaisedExc.excText]

/-! ## Claim theorems -/

/-- C1: for every response with status 400 / 401 / 403 / 404 or a 5xx
status, `request` (and, via the wrappers, `get`/`post`/`put`/`delete`)
produces exactly one classified failure whose kind is exactly
`ValidationError` / `AuthenticationError` / `AuthorizationError` /
`NotFoundError` / `ServerError` respectively. -/
theorem C1_status_code_maps_to_exact_error_kind
    (st : BaseClient) (method endpoint : String) (extra : List (String × String))
    (r : HttpResponse) :
    (r.status_code = 400 →
      ∃ e, (request st method endpoint extra (TransportOutcome.ok r)).2 =
        CallResult.raisedAPI e ∧ e.kind = ErrorKind.ValidationError) ∧
    (r.status_code = 401 →
      ∃ e, (request st method endpoint extra (TransportOutcome.ok r)).2 =
        CallResult.raisedAPI e ∧ e.kind = ErrorKind.AuthenticationError) ∧
    (r.status_code = 403 →
      ∃ e, (request st method endpoint extra (TransportOutcome.ok r)).2 =
        CallResult.raisedAPI e ∧ e.kind = ErrorKind.AuthorizationError) ∧
    (r.status_code = 404 →
      ∃ e, (request st method endpoint extra (TransportOutcome.ok r)).2 =
        CallResult.raisedAPI e ∧ e.kind = ErrorKind.NotFoundError) ∧
    (500 ≤ r.status_code → r.status_code < 600 →
      ∃ e, (request st method endpoint extra (TransportOutcome.ok r)).2 =
        CallResult.raisedAPI e ∧ e.kind = ErrorKind.ServerError) := by
  refine ⟨?_, ?_, ?_, ?_, ?_⟩
  · intro h
    exact ⟨classify r, dispatch_classified r (by omega) (by omega), classify_kind_400 r h⟩
  · intro h
    exact ⟨classify r, dispatch_classified r (by omega) (by omega), classify_kind_401 r h⟩
  · intro h
    exact ⟨classify r, dispatch_classified r (by omega) (by omega), classify_kind_403 r h⟩
  · intro h
    exact ⟨classify r, dispatch_classified r (by omega) (by omega), classify_kind_404 r h⟩
  · intro h5 h6
    exact ⟨classify r, dispatch_classified r (by omega) h6, classify_kind_5xx r h5⟩

/-- Witness for C1 at statuses 400, 401, 403, 404 and 503. -/
theorem C1_witness :
    (∃ e, (request clientA "GET" "/x" [] (TransportOutcome.ok (resp 400 none))).2 =
      CallResult.raisedAPI e ∧ e.kind = ErrorKind.ValidationError) ∧
    (∃ e, (request clientA "GET" "/x" [] (TransportOutcome.ok (resp 401 none))).2 =
      CallResult.raisedAPI e ∧ e.kind = ErrorKind.AuthenticationError) ∧
    (∃ e, (request clientA "GET" "/x" [] (TransportOutcome.ok (resp 403 none))).2 =
      CallResult.raisedAPI e ∧ e.kind = ErrorKind.AuthorizationError) ∧
    (∃ e, (request clientA "GET" "/x" [] (TransportOutcome.ok (resp 404 none))).2 =
      CallResult.raisedAPI e ∧ e.kind = ErrorKind.NotFoundError) ∧
    (∃ e, (request clientA "GET" "/x" [] (TransportOutcome.ok (resp 503 none))).2 =
      CallResult.raisedAPI e ∧ e.kind = ErrorKind.ServerError) :=
  ⟨(C1_status_code_maps_to_exact_error_kind clientA "GET" "/x" [] (resp 400 none)).1 rfl,
   (C1_status_code_maps_to_exact_error_kind clientA "GET" "/x" [] (resp 401 none)).2.1 rfl,
   (C1_status_code_maps_to_exact_error_kind clientA "GET" "/x" [] (resp 403 none)).2.2.1 rfl,
   (C1_status_code_maps_to_exact_error_kind clientA "GET" "/x" [] (resp 404 none)).2.2.2.1 rfl,
   (C1_status_code_maps_to_exact_error_kind clientA "GET" "/x" [] (resp 503 none)).2.2.2.2
     (by decide) (by decide)⟩

/-- C2: every call through the Transport Core terminates in exactly one of
a parsed JSON value or a classified failure — no raw transport-level
exception reaches the caller; `get`/`post`/`put`/`delete` are thin
delegations to `request`; and a 2xx response with a non-JSON body is
caught (as a `RequestException`) and classified as a `NetworkError`. -/
theorem C2_every_call_value_or_classified_failure
    (st : BaseClient) (method endpoint : String) (extra : List (String × String))
    (outcome : TransportOutcome) :
    ((∃ v, (request st method endpoint extra outcome).2 = CallResult.value v) ∨
     (∃ e, (request st method endpoint extra outcome).2 = CallResult.raisedAPI e)) ∧
    (get st endpoint extra outcome = request st "GET" endpoint extra outcome) ∧
    (post st endpoint extra outcome = request st "POST" endpoint extra outcome) ∧
    (put st endpoint extra outcome = request st "PUT" endpoint extra outcome) ∧
    (delete st endpoint extra outcome = request st "DELETE" endpoint extra outcome) ∧
    (∀ r : HttpResponse, 200 ≤ r.status_code → r.status_code ≤ 299 → r.jsonBody = none →
      (request st method endpoint extra (TransportOutcome.ok r)).2 =
        CallResult.raisedAPI (mkNetworkError ("网络错误: " ++ r.decodeErrText))) := by
  refine ⟨?_, rfl, rfl, rfl, rfl, ?_⟩
  · show (∃ v, dispatch outcome = CallResult.value v) ∨
      (∃ e, dispatch outcome = CallResult.raisedAPI e)
    cases outcome with
    | ok r =>
      by_cases h : 400 ≤ r.status_code ∧ r.status_code < 600
      · exact Or.inr ⟨classify r, dispatch_classified r h.1 h.2⟩
      · cases hb : r.jsonBody with
        | some v =>
          refine Or.inl ⟨v, ?_⟩
          rw [dispatch_no_raise r h, hb]
        | none =>
          refine Or.inr ⟨mkNetworkError ("网络错误: " ++ r.decodeErrText), ?_⟩
          rw [dispatch_no_raise r h, hb]
    | timeoutFault m => exact Or.inr ⟨_, rfl⟩
    | connFault m => exact Or.inr ⟨_, rfl⟩
    | otherFault m => exact Or.inr ⟨_, rfl⟩
  · intro r h2 h2' hb
    show dispatch (TransportOutcome.ok r) = _
    rw [dispatch_no_raise r (by omega), hb]

/-- Witness for C2: a 200 response whose body fails to parse becomes a
classified `NetworkError`, not an escaping exception. -/
theorem C2_witness :
    (request clientA "GET" "/x" [] (TransportOutcome.ok (resp 200 none))).2 =
      CallResult.raisedAPI (mkNetworkError ("网络错误: " ++ (resp 200 none).decodeErrText)) :=
  (C2_every_call_value_or_classified_failure clientA "GET" "/x" []
      (TransportOutcome.ok (resp 200 none))).2.2.2.2.2
    (resp 200 none) (by decide) (by decide) rfl

/-- C3 counterexample: a 304 response (non-2xx, not 400/401/403/404, not
5xx) does not produce a `GenericAPIError` failure — `raise_for_status`
does not raise outside [400, 600), so the body is parsed and returned. -/
theorem C3_counterexample :
    (request clientA "GET" "/x" [] (TransportOutcome.ok (resp 304 (some (Json.obj []))))).2 =
      CallResult.value (Json.obj []) ∧
    ∀ e, (request clientA "GET" "/x" [] (TransportOutcome.ok (resp 304 (some (Json.obj []))))).2 ≠
      CallResult.raisedAPI e := by
  have hv : (request clientA "GET" "/x" []
      (TransportOutcome.ok (resp 304 (some (Json.obj []))))).2 =
      CallResult.value (Json.obj []) := rfl
  exact ⟨hv, fun e h => CallResult.noConfusion (hv.symm.trans h)⟩

/-- C3 (amended): a non-2xx status raises only inside [400, 600), so the
`GenericAPIError` (base `OpenListAPIError`) branch is exactly the 4xx
statuses other than 400/401/403/404; a status outside [400, 600) — e.g. a
3xx such as 304 — is treated like the success path and the parsed body is
returned. -/
theorem C3_amended_generic_only_for_unmapped_4xx
    (st : BaseClient) (method endpoint : String) (extra : List (String × String))
    (r : HttpResponse) :
    (400 ≤ r.status_code → r.status_code < 500 →
     r.status_code ≠ 400 → r.status_code ≠ 401 → r.status_code ≠ 403 → r.status_code ≠ 404 →
      ∃ e, (request st method endpoint extra (TransportOutcome.ok r)).2 =
        CallResult.raisedAPI e ∧ e.kind = ErrorKind.OpenListAPIError) ∧
    (¬ (400 ≤ r.status_code ∧ r.status_code < 600) →
      ∀ v, r.jsonBody = some v →
        (request st method endpoint extra (TransportOutcome.ok r)).2 = CallResult.value v) := by
  constructor
  · intro hlo hhi n0 n1 n3 n4
    refine ⟨classify r, ?_, classify_kind_other_4xx r hlo hhi n0 n1 n3 n4⟩
    exact dispatch_classified r hlo (by omega)
  · intro h v hb
    show dispatch (TransportOutcome.ok r) = _
    rw [dispatch_no_raise r h, hb]

/-- Witness for the amended C3: 402 yields the base `OpenListAPIError`
kind; 304 with a JSON body yields the parsed body. -/
theorem C3_witness :
    (∃ e, (request clientA "GET" "/x" [] (TransportOutcome.ok (resp 402 none))).2 =
      CallResult.raisedAPI e ∧ e.kind = ErrorKind.OpenListAPIError) ∧
    (request clientA "GET" "/x" [] (TransportOutcome.ok (resp 304 (some Json.null)))).2 =
      CallResult.value Json.null :=
  ⟨(C3_amended_generic_only_for_unmapped_4xx clientA "GET" "/x" [] (resp 402 none)).1
      (by decide) (by decide) (by decide) (by decide) (by decide) (by decide),
   (C3_amended_generic_only_for_unmapped_4xx clientA "GET" "/x" [] (resp 304 (some Json.null))).2
      (by decide) Json.null rfl⟩

/-- C4: a 2xx response with a well-formed JSON body makes `request` return
exactly the parsed JSON value, unmodified. -/
theorem C4_2xx_returns_parsed_body_unmodified
    (st : BaseClient) (method endpoint : String) (extra : List (String × String))
    (r : HttpResponse) (v : Json)
    (h2 : 200 ≤ r.status_code) (h2' : r.status_code ≤ 299) (hb : r.jsonBody = some v) :
    (request st method endpoint extra (TransportOutcome.ok r)).2 = CallResult.value v := by
  show dispatch (TransportOutcome.ok r) = _
  rw [dispatch_no_raise r (by omega), hb]

/-- Witness for C4 at a 200 response with a concrete JSON body. -/
theorem C4_witness :
    (request clientA "GET" "/x" []
      (TransportOutcome.ok (resp 200 (some (Json.obj [("code", Json.num 200)]))))).2 =
      CallResult.value (Json.obj [("code", Json.num 200)]) :=
  C4_2xx_returns_parsed_body_unmodified clientA "GET" "/x" []
    (resp 200 (some (Json.obj [("code", Json.num 200)]))) (Json.obj [("code", Json.num 200)])
    (by decide) (by decide) rfl

/-- C5: each transport-level fault (`Timeout`, `ConnectionError`, any
other `RequestException`) is classified as a `NetworkError` whose status
code is absent — never an HTTP-status kind, never an unhandled escape. -/
theorem C5_transport_fault_is_network_error
    (st : BaseClient) (method endpoint : String) (extra : List (String × String))
    (m : String) :
    ((request st method endpoint extra (TransportOutcome.timeoutFault m)).2 =
      CallResult.raisedAPI (mkNetworkError ("请求超时: " ++ m))) ∧
    ((request st method endpoint extra (TransportOutcome.connFault m)).2 =
      CallResult.raisedAPI (mkNetworkError ("连接失败: " ++ m))) ∧
    ((request st method endpoint extra (TransportOutcome.otherFault m)).2 =
      CallResult.raisedAPI (mkNetworkError ("网络错误: " ++ m))) ∧
    (∀ msg, (mkNetworkError msg).kind = ErrorKind.NetworkError ∧
      (mkNetworkError msg).status_code = none) :=
  ⟨rfl, rfl, rfl, fun _ => ⟨rfl, rfl⟩⟩

/-- C10: an unset or empty token fails the `if self.token:` presence test,
so no `Authorization` header is attached to any call (whose caller headers
do not add one themselves). -/
theorem C10_empty_token_sends_no_auth_header
    (st : BaseClient) (method endpoint : String) (extra : List (String × String))
    (outcome : TransportOutcome)
    (h : st.token = none ∨ st.token = some "")
    (hextra : headerLookup extra "Authorization" = none) :
    headerLookup (get_headers st) "Authorization" = none ∧
    headerLookup ((request st method endpoint extra outcome).1.headers) "Authorization" = none := by
  have hg : headerLookup (get_headers st) "Authorization" = none := by
    rcases h with h | h <;> simp [get_headers, pyTruthy, h, headerLookup]
  refine ⟨hg, ?_⟩
  show headerLookup (extra ++ get_headers st) "Authorization" = none
  rw [headerLookup_append, hextra]
  exact hg

/-- Witness for C10: a token set to the empty string attaches no
`Authorization` header. -/
theorem C10_witness :
    headerLookup (get_headers (set_token clientA "")) "Authorization" = none ∧
    headerLookup ((request (set_token clientA "") "GET" "/x" []
        (TransportOutcome.otherFault "boom")).1.headers) "Authorization" = none :=
  C10_empty_token_sends_no_auth_header (set_token clientA "") "GET" "/x" []
    (TransportOutcome.otherFault "boom") (Or.inr rfl) rfl

/-- C6 counterexample: the empty string is a credential string, yet after
`set_token client ""` a call carries no `Authorization` header at all —
the header is not the verbatim credential `""`. -/
theorem C6_counterexample :
    headerLookup ((request (set_token clientA "") "GET" "/p" []
        (TransportOutcome.otherFault "x")).1.headers) "Authorization" = none := by
  decide

/-- C6 (amended): for every NONEMPTY credential string set via
`set_token`, every subsequent call whose caller-supplied headers do not
themselves contain an `Authorization` entry carries an `Authorization`
header equal to the verbatim credential, with no scheme prefix added. -/
theorem C6_verbatim_auth_header_for_nonempty_token
    (base : BaseClient) (token method endpoint : String)
    (extra : List (String × String)) (outcome : TransportOutcome)
    (ht : token ≠ "")
    (hextra : headerLookup extra "Authorization" = none) :
    headerLookup ((request (set_token base token) method endpoint extra outcome).1.headers)
      "Authorization" = some token := by
  show headerLookup (extra ++ get_headers (set_token base token)) "Authorization" = some token
  rw [headerLookup_append, hextra]
  simp [get_headers, set_token, pyTruthy, headerLookup, ht]

/-- Witness for the amended C6 at a concrete token. -/
theorem C6_witness :
    headerLookup ((request (set_token clientA "tok123") "GET" "/p" []
        (TransportOutcome.otherFault "x")).1.headers) "Authorization" = some "tok123" :=
  C6_verbatim_auth_header_for_nonempty_token clientA "tok123" "GET" "/p" []
    (TransportOutcome.otherFault "x") (by decide) rfl

/-- C7: every non-2xx failure branch parses the body as JSON and extracts
its `message` field for the failure's message, falling back to the
transport library's status-line text; the numeric status code and the raw
response are always attached. -/
theorem C7_failure_message_status_and_response_attached
    (st : BaseClient) (method endpoint : String) (extra : List (String × String))
    (r : HttpResponse) (h4 : 400 ≤ r.status_code) (h6 : r.status_code < 600) :
    ∃ e, (request st method endpoint extra (TransportOutcome.ok r)).2 =
      CallResult.raisedAPI e ∧
      e.message = specFailureMessage r ∧
      e.status_code = some r.status_code ∧
      e.response = some r :=
  ⟨classify r, dispatch_classified r h4 h6,
   (classify_fields r).1.trans (extractMessage_eq_spec r),
   (classify_fields r).2.1, (classify_fields r).2.2⟩

/-- Witness for C7 at a 404 response whose body carries a `message`
field. -/
theorem C7_witness :
    ∃ e, (request clientA "GET" "/x" []
        (TransportOutcome.ok (resp 404 (some (Json.obj [("message", Json.str "oops")]))))).2 =
      CallResult.raisedAPI e ∧
      e.message = specFailureMessage (resp 404 (some (Json.obj [("message", Json.str "oops")]))) ∧
      e.status_code = some (resp 404 (some (Json.obj [("message", Json.str "oops")]))).status_code ∧
      e.response = some (resp 404 (some (Json.obj [("message", Json.str "oops")]))) :=
  C7_failure_message_status_and_response_attached clientA "GET" "/x" []
    (resp 404 (some (Json.obj [("message", Json.str "oops")]))) (by decide) (by decide)

/-! ## Digest lemmas for C8 -/

theorem beBytes_length (k n : Nat) : (beBytes k n).length = k := by
  induction k generalizing n with
  | zero => rfl
  | succ k ih => simp [beBytes, ih]

theorem sha256_length (msg : List Nat) : (sha256 msg).length = 32 := by
  simp [sha256, beBytes_length]

theorem flatMap_hex_length (l : List Nat) : (l.flatMap byteToHexLower).length = 2 * l.length := by
  induction l with
  | nil => rfl
  | cons b rest ih =>
    rw [List.flatMap_cons, List.length_append, ih]
    show 2 + 2 * rest.length = 2 * (rest.length + 1)
    omega

theorem hexLowerChar_is_lower (n : Nat) (h : n < 16) :
    isLowerHexDigit (hexLowerChar n) = true := by
  have hall : ∀ m : Fin 16, isLowerHexDigit (hexLowerChar m.val) = true := by decide
  exact hall ⟨n, h⟩

theorem byteToHexLower_all_lower (b : Nat) :
    (byteToHexLower b).all isLowerHexDigit = true := by
  have h1 := hexLowerChar_is_lower (b / 16 % 16) (Nat.mod_lt _ (by norm_num))
  have h2 := hexLowerChar_is_lower (b % 16) (Nat.mod_lt _ (by norm_num))
  simp [byteToHexLower, h1, h2]

theorem flatMap_hex_all_lower (l : List Nat) :
    ((l.flatMap byteToHexLower).all isLowerHexDigit) = true := by
  induction l with
  | nil => rfl
  | cons b rest ih =>
    simp [List.flatMap_cons, List.all_append, byteToHexLower_all_lower b, ih]

/-- The hexdigest of any input is 64 characters, all lowercase hex. -/
theorem sha256Hex_lower_and_length (s : String) :
    (sha256Hex s).toList.all isLowerHexDigit = true ∧ (sha256Hex s).length = 64 := by
  constructor
  · show ((sha256 (utf8Bytes s)).flatMap byteToHexLower).all isLowerHexDigit = true
    exact flatMap_hex_all_lower _
  · show ((sha256 (utf8Bytes s)).flatMap byteToHexLower).length = 64
    rw [flatMap_hex_length, sha256_length]

/-- FIPS 180-4 test vector: the digest of the empty message. -/
theorem sha256Hex_vector_empty :
    sha256Hex "" = "e3b0c44298fc1c149afbf4c8996fb92427ae41e4649b934ca495991b7852b855" := by
  rfl

/-- FIPS 180-4 test vector: the digest of `"abc"`. -/
theorem sha256Hex_vector_abc :
    sha256Hex "abc" = "ba7816bf8f01cfea414140de5dae2223b00361a396177a9cb410ff61f20015ad" := by
  rfl

/-- C8: `login_hash` sends a `password` field equal to the lowercase hex
SHA-256 digest of the plaintext password concatenated with the fixed
suffix; the transform only depends on the username/password/otp arguments,
not on the Transport Core's state; and at
`login_hash("admin", "password123")` the field is exactly
`sha256("password123-https://github.com/alist-org/alist")`, hex, lowercase. -/
theorem C8_login_hash_password_is_suffixed_sha256
    (username password : String) (otp : Option String)
    (st st' : BaseClient) (o o' : TransportOutcome) :
    jsonGet (login_hash st username password otp o).1 "password" =
      some (Json.str (sha256Hex (password ++ "-https://github.com/alist-org/alist"))) ∧
    (login_hash st username password otp o).1 = (login_hash st' username password otp o').1 ∧
    jsonGet (login_hash clientA "admin" "password123" none (TransportOutcome.otherFault "x")).1
        "password" =
      some (Json.str "046119821c86ff68c103f32322077b108bde0d58d09c9f85cf98c3471aafa17e") ∧
    sha256Hex ("password123" ++ "-https://github.com/alist-org/alist") =
      "046119821c86ff68c103f32322077b108bde0d58d09c9f85cf98c3471aafa17e" ∧
    (sha256Hex (password ++ loginHashSuffix)).toList.all isLowerHexDigit = true ∧
    (sha256Hex (password ++ loginHashSuffix)).length = 64 := by
  refine ⟨?_, ?_, ?_, ?_, (sha256Hex_lower_and_length _).1, (sha256Hex_lower_and_length _).2⟩
  · show jsonGet (login_hash_payload username password otp) "password" = _
    unfold login_hash_payload
    split <;> simp [jsonGet, loginHashSuffix]
  · rfl
  · rfl
  · rfl

/-- C9: both upload operations carry the target path percent-encoded
with `safe=''` (so exactly the always-safe set, which equals the RFC 3986
unreserved set, is exempt; every other byte is `%XX`-escaped) and the
as-task boolean flag, as header values. -/
theorem C9_upload_headers_percent_encoded_path_and_task_flag
    (st : BaseClient) (file_path : String) (as_task : Bool) (outcome : TransportOutcome) :
    headerLookup (form_upload st file_path as_task outcome).1.headers "File-Path" =
      some (quote file_path) ∧
    headerLookup (stream_upload st file_path as_task outcome).1.headers "File-Path" =
      some (quote file_path) ∧
    headerLookup (form_upload st file_path as_task outcome).1.headers "As-Task" =
      some (pyBoolStr as_task) ∧
    headerLookup (stream_upload st file_path as_task outcome).1.headers "As-Task" =
      some (pyBoolStr as_task) ∧
    quote file_path = String.join ((utf8Bytes file_path).map quoteByte) ∧
    (∀ b : Fin 256, alwaysSafeByte b.val = isUnreservedByte b.val) ∧
    (∀ b : Fin 256, alwaysSafeByte b.val = false →
      quoteByte b.val = String.mk ['%', hexUpperChar (b.val / 16 % 16), hexUpperChar (b.val % 16)]) := by
  refine ⟨rfl, rfl, rfl, rfl, rfl, by decide, ?_⟩
  intro b hb
  simp [quoteByte, hb]

/-- Witness for C9: the space byte is outside the unreserved set and is
escaped as `%20`; a concrete path is sent fully percent-encoded. -/
theorem C9_witness :
    headerLookup (form_upload clientA "/a b" true (TransportOutcome.otherFault "x")).1.headers
      "File-Path" = some "%2Fa%20b" ∧
    quoteByte 32 = "%20" := by
  constructor
  · exact ((C9_upload_headers_percent_encoded_path_and_task_flag clientA "/a b" true
      (TransportOutcome.otherFault "x")).1).trans (by decide)
  · exact ((C9_upload_headers_percent_encoded_path_and_task_flag clientA "/a b" true
      (TransportOutcome.otherFault "x")).2.2.2.2.2.2 ⟨32, by decide⟩ (by decide)).trans (by decide)

end OpenList
